import Mathlib

/-
  Verification development for the minimal server-side-rendered web
  application (manual HTTP dispatch, cookie sessions, shared layout).

  Shallow embedding notes:
  * JS strings are Lean `String` (lists of characters); the chained
    `String.prototype.replace(/c/g, rep)` calls of the escaper are modelled
    character by character.
  * The process-wide `global.sessions` object is a total map
    `String -> Option String` (`none` = key absent).
  * A JS computed member access `obj[k]` with `k === undefined` uses the
    property key "undefined" (ToPropertyKey coercion); `jsKey` models this.
  * A property READ on the plain-object registry walks the prototype
    chain: an own property wins, otherwise a key naming one of the twelve
    Object.prototype members yields that inherited, truthy, non-string
    value; `sessionsRead` models this. Writes and deletes touch own
    properties only.
  * `params.get(f)` of `URLSearchParams` yields `null` for a missing field;
    handlers therefore receive `Option String` form fields, `none` for a
    missing or malformed body.
  * The external bcrypt library rejects (throws) when its data argument is
    not a string; `bcryptHash` / `bcryptCompare` model this with `Except`.
  * Fallible JS code (throwing handlers, rejected promises) is modelled
    with `Except JsError`.
-/

namespace WebApp

/-- Boolean test: does the second character list start with the first? -/
def leadsWith : List Char → List Char → Bool
  | [], _ => true
  | _ :: _, [] => false
  | a :: as, b :: bs => a == b && leadsWith as bs

/-- Boolean test: does the needle occur contiguously inside the haystack? -/
def occursIn (n : List Char) : List Char → Bool
  | [] => leadsWith n []
  | x :: xs => leadsWith n (x :: xs) || occursIn n xs

/-- String-level containment test, used to state what rendered HTML holds. -/
def strContains (hay needle : String) : Bool :=
  occursIn needle.data hay.data

/-- String-level test: does the string start with the given other string?
    Models JS `pathname.startsWith(p)`. -/
def strStartsWith (s p : String) : Bool :=
  leadsWith p.data s.data

/-- The double-quote character (codepoint 34). -/
def quoteC : Char := Char.ofNat 34

/-- The apostrophe character (codepoint 39). -/
def aposC : Char := Char.ofNat 39

/-- One global single-character replacement pass, modelling
    `str.replace(/c/g, rep)` from src/utils.js (the replacement strings of
    the escaper contain no `$` patterns, so plain splicing is exact). -/
def replaceChar (c : Char) (rep : List Char) : List Char → List Char
  | [] => []
  | x :: xs => if x = c then rep ++ replaceChar c rep xs else x :: replaceChar c rep xs

/-- The escaping pipeline of src/utils.js on an actual string: the five
    chained `.replace` calls, ampersand first. -/
def escapeHtmlStr (s : String) : String :=
  ⟨replaceChar aposC "&#039;".data
    (replaceChar quoteC "&quot;".data
      (replaceChar '>' "&gt;".data
        (replaceChar '<' "&lt;".data
          (replaceChar '&' "&amp;".data s.data))))⟩

/-- A JS value as seen by `escapeHtml`: null, undefined, a string, or any
    other value together with its `String(value)` conversion. -/
inductive JsInput where
  | null
  | undef
  | str (s : String)
  | other (conv : String)

/-- src/utils.js `escapeHtml`: non-strings are handled first (null and
    undefined give the empty string, anything else its string conversion,
    unescaped); strings go through the replacement chain. -/
def escapeHtml : JsInput → String
  | .null => ""
  | .undef => ""
  | .other conv => conv
  | .str s => escapeHtmlStr s

/-- Per-character entity map; the specification-level description of the
    escaper, proven equal to the replacement chain below. -/
def escChar (c : Char) : List Char :=
  if c = '&' then "&amp;".data
  else if c = '<' then "&lt;".data
  else if c = '>' then "&gt;".data
  else if c = quoteC then "&quot;".data
  else if c = aposC then "&#039;".data
  else [c]

/-- Concatenation of the images of a character map over a list. -/
def concatMap (f : Char → List Char) : List Char → List Char
  | [] => []
  | x :: xs => f x ++ concatMap f xs

/-- The process-wide session registry `global.sessions`:
    a total map from token to bound username, `none` meaning absent. -/
abbrev Sessions := String → Option String

/-- The registry at startup: `global.sessions = {}` in src/server.js. -/
def Sessions.empty : Sessions := fun _ => none

/-- `global.sessions[tok] = usr`. -/
def Sessions.insert (s : Sessions) (tok usr : String) : Sessions :=
  fun k => if k = tok then some usr else s k

/-- `delete global.sessions[tok]`. -/
def Sessions.erase (s : Sessions) (tok : String) : Sessions :=
  fun k => if k = tok then none else s k

/-- `global.sessions[tok]`: total, returns the binding or signals absence. -/
def Sessions.lookup (s : Sessions) (tok : String) : Option String := s tok

/-- JS ToPropertyKey for a possibly-undefined cookie value: an undefined
    key is coerced to the property name "undefined". -/
def jsKey : Option String → String
  | some t => t
  | none => "undefined"

/-- A value read from the registry object: an own property (a binding the
    handlers made), a member inherited from Object.prototype (truthy and
    non-string, carried with its String() conversion), or undefined. -/
inductive PropVal where
  | bound (u : String)
  | inherited (conv : String)
  | missing

/-- Modelled from the JS runtime: the members a plain object inherits from
    Object.prototype, each with the String() conversion Node gives it. -/
def objectProtoProps : List (String × String) :=
  [("constructor", "function Object() \x7b [native code] \x7d"),
   ("hasOwnProperty", "function hasOwnProperty() \x7b [native code] \x7d"),
   ("isPrototypeOf", "function isPrototypeOf() \x7b [native code] \x7d"),
   ("propertyIsEnumerable", "function propertyIsEnumerable() \x7b [native code] \x7d"),
   ("toLocaleString", "function toLocaleString() \x7b [native code] \x7d"),
   ("toString", "function toString() \x7b [native code] \x7d"),
   ("valueOf", "function valueOf() \x7b [native code] \x7d"),
   ("__proto__", "[object Object]"),
   ("__defineGetter__", "function __defineGetter__() \x7b [native code] \x7d"),
   ("__defineSetter__", "function __defineSetter__() \x7b [native code] \x7d"),
   ("__lookupGetter__", "function __lookupGetter__() \x7b [native code] \x7d"),
   ("__lookupSetter__", "function __lookupSetter__() \x7b [native code] \x7d")]

/-- The String() conversion of the Object.prototype member a key names,
    if it names one. -/
def objectProtoMember (k : String) : Option String :=
  (objectProtoProps.find? (fun p => p.1 == k)).map (fun p => p.2)

/-- The full JS property read `global.sessions?.[k]`: an own property
    (a binding made by the handlers) wins; otherwise the prototype chain
    supplies the inherited Object.prototype member for the twelve keys
    that name one; every other key reads as undefined. Handlers that
    truth-test the result treat only undefined as absent: the inherited
    members are functions (or, for proto, an object) and are truthy. -/
def sessionsRead (s : Sessions) (k : String) : PropVal :=
  match s k with
  | some u => .bound u
  | none =>
    match objectProtoMember k with
    | some conv => .inherited conv
    | none => .missing

/-- A session-registry operation performed by some request: a successful
    login/registration inserts a fresh token, a logout deletes one. -/
inductive RegOp where
  | create (tok usr : String)
  | del (tok : String)

/-- The token an operation touches. -/
def RegOp.tok : RegOp → String
  | .create t _ => t
  | .del t => t

/-- Effect of one registry operation. -/
def applyOp (s : Sessions) : RegOp → Sessions
  | .create t u => s.insert t u
  | .del t => s.erase t

/-- Effect of a sequence of registry operations, oldest first. -/
def applyOps (s : Sessions) (ops : List RegOp) : Sessions :=
  ops.foldl applyOp s

/-- An error thrown/rejected in JS, carrying its message. -/
structure JsError where
  msg : String
deriving DecidableEq

/-- One row of the `users` table: `name TEXT PRIMARY KEY, password TEXT`.
    SQLite permits NULL in a TEXT primary key, so the name is optional. -/
structure UserRec where
  name : Option String
  password : String
deriving DecidableEq

/-- The persisted credential store (the `users` table). -/
abbrev Store := List UserRec

/-- database.js `getUserByName`: `SELECT * FROM users WHERE name = ?`.
    A NULL parameter matches no row (SQL equality with NULL is never true),
    and a missing row resolves to absence, not an error. -/
def getUserByName (db : Store) : Option String → Option UserRec
  | none => none
  | some n => db.find? (fun r => r.name == some n)

/-- database.js `createUser`: `INSERT INTO users (name, password)`.
    A duplicate name raises SQLITE_CONSTRAINT, which the callback converts
    to `false` with the table unchanged; otherwise the row is appended and
    the result is `true`. NULL primary keys never conflict in SQLite. -/
def createUser (db : Store) (name : Option String) (hash : String) : Bool × Store :=
  match name with
  | none => (true, db ++ [⟨none, hash⟩])
  | some n =>
    if db.any (fun r => r.name == some n) then (false, db)
    else (true, db ++ [⟨some n, hash⟩])

/-- `createUser` as the register handler consumes it: a resolved promise
    (`Except.ok`); only an unexpected storage fault would be an error. -/
def createUserE (db : Store) (name : Option String) (hash : String) :
    Except JsError (Bool × Store) :=
  .ok (createUser db name hash)

/-- External bcrypt `hash(data, rounds)`: rejects when the data argument is
    not a string (as `params.get` returns for a missing field), otherwise
    produces the salted hash, modelled by an abstract hash function. -/
def bcryptHash (hashFn : String → String) : Option String → Except JsError String
  | none => .error ⟨"data must be a string"⟩
  | some p => .ok (hashFn p)

/-- External bcrypt `compare(data, hash)`: rejects when the data argument
    is not a string, otherwise verifies via an abstract boolean oracle. -/
def bcryptCompare (verify : String → String → Bool) :
    Option String → String → Except JsError Bool
  | none, _ => .error ⟨"data and hash arguments required"⟩
  | some p, h => .ok (verify p h)

/-- What a page handler hands back: the registry afterwards, the HTML body,
    and the Set-Cookie header value if one was set. -/
structure HandlerOut where
  sessions : Sessions
  body : String
  setCookie : Option String

/-- Register additionally threads the credential store. -/
structure RegisterOut where
  sessions : Sessions
  store : Store
  body : String
  setCookie : Option String

/-- Result of GET /logout: registry afterwards, body, and the always-set
    clearing cookie header. -/
structure LogoutOut where
  sessions : Sessions
  body : String
  setCookie : String

/-- Query parameters as handlers receive them (all handlers under the
    allow-listed routes ignore them). -/
abbrev Query := String → Option String

/-- Generic login failure body from src/pages/login.js. -/
def loginFailMsg : String :=
  "<p>Login failed. <a href=\"/login\">Try again</a></p>"

/-- Login success body from src/pages/login.js. -/
def loginOkMsg : String :=
  "<p>Login successful! <a href=\"/profile\">Go to profile</a></p>"

/-- Registration success body. -/
def registerOkMsg : String :=
  "<p>Registration successful! <a href=\"/profile\">Go to profile</a></p>"

/-- Duplicate-name body from the register handler. -/
def takenMsg : String :=
  "<p>Username already taken. <a href=\"/register\">Try again</a></p>"

/-- Generic storage-fault body from the register handler. -/
def serverErrMsg : String :=
  "<p>Server error. Please try again later.</p>"

/-- Login-prompt body of the session-gated profile page. -/
def profilePrompt : String :=
  "<p>Please <a href=\"/login\">log in</a> to view your profile.</p>"

/-- Logout confirmation body. -/
def logoutMsg : String :=
  "<p>You have been logged out. <a href=\"/login\">Login again</a></p>"

/-- The session cookie set on successful login/registration. -/
def sessionCookieFor (tok : String) : String :=
  "session=" ++ tok ++ "; HttpOnly; Path=/"

/-- The clearing cookie set by logout. -/
def clearCookie : String :=
  "session=; Max-Age=0; Path=/; HttpOnly"

/-- POST branch of src/pages/login.js `render`: read `name` and `password`
    from the url-encoded body, look the user up, verify the password, and
    on success bind a fresh token and set the session cookie; any failure
    yields the one generic message with no cookie and no registry change.
    A missing name reaches `getUserByName(null)`, which finds no row. -/
def loginPost (verify : String → String → Bool) (newTok : String) (db : Store)
    (name pass : Option String) (s : Sessions) : Except JsError HandlerOut :=
  match name with
  | none => .ok ⟨s, loginFailMsg, none⟩
  | some n =>
    match getUserByName db (some n) with
    | none => .ok ⟨s, loginFailMsg, none⟩
    | some u =>
      match bcryptCompare verify pass u.password with
      | .error e => .error e
      | .ok true =>
        .ok ⟨Sessions.insert s newTok n, loginOkMsg, some (sessionCookieFor newTok)⟩
      | .ok false => .ok ⟨s, loginFailMsg, none⟩

/-- POST branch of the register handler (src/unnamed/part_003 `render`):
    `bcrypt.hash(pass, 10)` runs BEFORE the try block, so its rejection on
    a missing password propagates unhandled (`Except.error`); inside the
    try, a duplicate name yields the taken message and a storage fault the
    generic server-error message. On success the new session stores the
    submitted name (a null name stores a null value, which every reader
    treats as absent, modelled as no insertion). -/
def registerPost (hashFn : String → String) (newTok : String)
    (create : Store → Option String → String → Except JsError (Bool × Store))
    (db : Store) (name pass : Option String) (s : Sessions) :
    Except JsError RegisterOut :=
  match bcryptHash hashFn pass with
  | .error e => .error e
  | .ok h =>
    match create db name h with
    | .error _ => .ok ⟨s, db, serverErrMsg, none⟩
    | .ok (true, db2) =>
      .ok ⟨(match name with
            | some n => Sessions.insert s newTok n
            | none => s), db2, registerOkMsg, some (sessionCookieFor newTok)⟩
    | .ok (false, db2) => .ok ⟨s, db2, takenMsg, none⟩

/-- Session-gated profile page (src/unnamed/part_002 `render`): reads the
    `session` cookie and the registry through the full JS property read.
    The `if (!user)` test prompts for login only when the read is
    undefined (falsy); a bound username is greeted escaped, while a member
    inherited from Object.prototype is truthy and non-string, so
    `escapeHtml` passes its String() conversion through UNESCAPED and the
    handler greets instead of prompting. Ignores the query. -/
def profileRender (_query : Query) (s : Sessions) (cookieSession : Option String) : String :=
  match sessionsRead s (jsKey cookieSession) with
  | .missing => profilePrompt
  | .bound u =>
    "<h1>Welcome, " ++ escapeHtmlStr u ++ "!</h1><p>This is your private profile page.</p>"
  | .inherited conv =>
    "<h1>Welcome, " ++ conv ++ "!</h1><p>This is your private profile page.</p>"

/-- Logout handler: deletes the registry entry for the cookie token (the
    property key is "undefined" when no cookie is present) and always sets
    the clearing cookie. Total: it never errors. -/
def logoutRender (s : Sessions) (cookieSession : Option String) : LogoutOut :=
  ⟨Sessions.erase s (jsKey cookieSession), logoutMsg, clearCookie⟩

/-- Page title metadata; `none` models a missing `meta.title` property. -/
structure Meta where
  title : Option String := none

/-- JS `x || d` on a possibly-absent string property: both a missing
    property (undefined) and the empty string are falsy. -/
def jsOr (x : Option String) (d : String) : String :=
  match x with
  | none => d
  | some s => if s = "" then d else s

/-- Fixed shell text of src/pages/app.js up to the title element. -/
def wrapA : String := "\n<!DOCTYPE html>\n<html>\n  <head>\n    "

/-- The stylesheet link of src/pages/app.js (absolute /public path). -/
def styleLinkSlash : String :=
  "<link rel=\"stylesheet\" href=\"/public/style.css\">"

/-- The stylesheet link of the escaping layout variant (relative path). -/
def styleLinkPlain : String :=
  "<link rel=\"stylesheet\" href=\"public/style.css\">"

/-- Fixed shell text between the stylesheet link and the nav fragment. -/
def wrapB2 : String :=
  "\n  </head>\n  <body>\n    <div class=\"container\">\n      "

/-- Fixed shell text between the title element and the stylesheet link,
    parameterized by the variant of the link. -/
def wrapB (link : String) : String := "\n    " ++ link ++ wrapB2

/-- Fixed shell text between the nav fragment and the page body. -/
def wrapC : String := "\n      "

/-- Fixed shell text closing the document. -/
def wrapD : String := "\n    </div>\n  </body>\n</html>\n"

/-- src/pages/app.js nav fragment: the truthiness test on the property
    read picks the authenticated branch, which interpolates the value RAW
    (no escaping; template interpolation applies String() to a non-string)
    next to the logout link; the anonymous branch (read of an absent key) is the
    fixed login/register links. -/
def authLinksRaw (s : Sessions) (cookieSession : Option String) : String :=
  match sessionsRead s (jsKey cookieSession) with
  | .bound u => "<p>Logged in as " ++ u ++ " | <a href=\"/logout\">Logout</a></p>"
  | .inherited conv => "<p>Logged in as " ++ conv ++ " | <a href=\"/logout\">Logout</a></p>"
  | .missing => "<p><a href=\"/login\">Login</a> | <a href=\"/register\">Register</a></p>"

/-- Nav fragment of the escaping layout variant (src/unnamed/part_001):
    identical except the value goes through `escapeHtml`, which escapes a
    bound username but passes a non-string inherited member through its
    String() conversion unescaped. -/
def authLinksEsc (s : Sessions) (cookieSession : Option String) : String :=
  match sessionsRead s (jsKey cookieSession) with
  | .bound u => "<p>Logged in as " ++ escapeHtmlStr u ++ " | <a href=\"/logout\">Logout</a></p>"
  | .inherited conv => "<p>Logged in as " ++ conv ++ " | <a href=\"/logout\">Logout</a></p>"
  | .missing => "<p><a href=\"/login\">Login</a> | <a href=\"/register\">Register</a></p>"

/-- src/pages/app.js `wrap`: the template literal as the concatenation of
    its fixed parts and interpolations (title via `meta.title||"Untitled"`,
    nav fragment, body HTML verbatim). -/
def wrap (body : String) (meta : Meta) (s : Sessions) (cookieSession : Option String) : String :=
  wrapA ++ "<title>" ++ jsOr meta.title "Untitled" ++ "</title>" ++
    wrapB styleLinkSlash ++ authLinksRaw s cookieSession ++ wrapC ++ body ++ wrapD

/-- `wrap` of the escaping layout variant (src/unnamed/part_001): escapes
    the title and the username, uses the relative stylesheet path. -/
def wrapEsc (body : String) (meta : Meta) (s : Sessions) (cookieSession : Option String) : String :=
  wrapA ++ "<title>" ++ escapeHtmlStr (jsOr meta.title "Untitled") ++ "</title>" ++
    wrapB styleLinkPlain ++ authLinksEsc s cookieSession ++ wrapC ++ body ++ wrapD

/-- The route allow-list of src/server.js. -/
def allowedPageModules (pathname : String) : Option String :=
  if pathname = "/" then some "index"
  else if pathname = "/login" then some "login"
  else if pathname = "/register" then some "register"
  else if pathname = "/profile" then some "profile"
  else if pathname = "/logout" then some "logout"
  else none

/-- An HTTP response as the dispatcher writes it. -/
structure HttpResponse where
  status : Nat
  body : String
deriving DecidableEq

/-- The request dispatcher of src/server.js: static-asset prefix first
    (existing file streamed, else 404 "Not found"); then the allow-list
    (no match throws, caught below); then require+render of the matched
    page (modelled by `runPage`, whose error is a thrown exception) and
    the layout wrap. Every throw lands in the catch block: the error is
    only logged and the client gets 404 with the generic body. -/
def dispatch (fileExists : String → Bool) (fileBody : String → String)
    (runPage : String → Except String (String × Meta))
    (s : Sessions) (cookieSession : Option String) (pathname : String) : HttpResponse :=
  if strStartsWith pathname "/public/" then
    if fileExists pathname then ⟨200, fileBody pathname⟩
    else ⟨404, "Not found"⟩
  else
    match allowedPageModules pathname with
    | none => ⟨404, "Page not found"⟩
    | some key =>
      match runPage key with
      | .error _ => ⟨404, "Page not found"⟩
      | .ok (html, meta) => ⟨200, wrap html meta s cookieSession⟩

theorem leadsWith_here (n b : List Char) : leadsWith n (n ++ b) = true := by
  induction n with
  | nil => rfl
  | cons x xs ih => simp [leadsWith, ih]

theorem occursIn_of_leadsWith (n l : List Char) (h : leadsWith n l = true) :
    occursIn n l = true := by
  cases l with
  | nil => simpa [occursIn] using h
  | cons x xs => simp [occursIn, h]

theorem occursIn_append_left (a n l : List Char) (h : occursIn n l = true) :
    occursIn n (a ++ l) = true := by
  induction a with
  | nil => simpa using h
  | cons x a2 ih => simp [occursIn, ih]

theorem occursIn_sandwich (a n b : List Char) :
    occursIn n (a ++ (n ++ b)) = true :=
  occursIn_append_left a n (n ++ b) (occursIn_of_leadsWith n (n ++ b) (leadsWith_here n b))

theorem strAppend_assoc (a b c : String) : a ++ b ++ c = a ++ (b ++ c) := by
  apply String.ext
  simp

theorem strContains_parts (A N B H : String) (h : H = A ++ (N ++ B)) :
    strContains H N = true := by
  subst h
  simp only [strContains, String.data_append]
  exact occursIn_sandwich A.data N.data B.data

theorem lookup_applyOps_of_ne : ∀ (ops : List RegOp) (s : Sessions) (t u : String),
    (∀ op ∈ ops, RegOp.tok op ≠ t) → Sessions.lookup s t = some u →
    Sessions.lookup (applyOps s ops) t = some u := by
  intro ops
  induction ops with
  | nil => intro s t u _ hbase; simpa [applyOps] using hbase
  | cons op rest ih =>
    intro s t u hops hbase
    have hop : RegOp.tok op ≠ t := hops op (List.mem_cons_self op rest)
    have hrest : ∀ op2 ∈ rest, RegOp.tok op2 ≠ t :=
      fun op2 h2 => hops op2 (List.mem_cons_of_mem op h2)
    have hfold : applyOps s (op :: rest) = applyOps (applyOp s op) rest := by
      simp [applyOps]
    rw [hfold]
    apply ih (applyOp s op) t u hrest
    cases op with
    | create t2 u2 =>
      have ht2 : t2 ≠ t := by simpa [RegOp.tok] using hop
      show Sessions.lookup (Sessions.insert s t2 u2) t = some u
      unfold Sessions.lookup Sessions.insert
      rw [if_neg (fun he => ht2 he.symm)]
      exact hbase
    | del t2 =>
      have ht2 : t2 ≠ t := by simpa [RegOp.tok] using hop
      show Sessions.lookup (Sessions.erase s t2) t = some u
      unfold Sessions.lookup Sessions.erase
      rw [if_neg (fun he => ht2 he.symm)]
      exact hbase

theorem replaceChar_eq_concatMap (c : Char) (rep : List Char) (l : List Char) :
    replaceChar c rep l = concatMap (fun x => if x = c then rep else [x]) l := by
  induction l with
  | nil => rfl
  | cons x xs ih => by_cases h : x = c <;> simp [replaceChar, concatMap, h, ih]

theorem replaceChar_append (c : Char) (rep l1 l2 : List Char) :
    replaceChar c rep (l1 ++ l2) = replaceChar c rep l1 ++ replaceChar c rep l2 := by
  induction l1 with
  | nil => rfl
  | cons x xs ih => by_cases h : x = c <;> simp [replaceChar, h, ih]

theorem replaceChar_concatMap (c : Char) (rep : List Char) (g : Char → List Char)
    (l : List Char) :
    replaceChar c rep (concatMap g l)
      = concatMap (fun x => replaceChar c rep (g x)) l := by
  induction l with
  | nil => rfl
  | cons x xs ih => simp [concatMap, replaceChar_append, ih]

theorem concatMap_congr (f g : Char → List Char) (h : ∀ x, f x = g x)
    (l : List Char) : concatMap f l = concatMap g l := by
  induction l with
  | nil => rfl
  | cons x xs ih => simp [concatMap, h x, ih]

theorem escChain_char (x : Char) :
    replaceChar aposC "&#039;".data
      (replaceChar quoteC "&quot;".data
        (replaceChar '>' "&gt;".data
          (replaceChar '<' "&lt;".data
            (if x = '&' then "&amp;".data else [x])))) = escChar x := by
  by_cases h1 : x = '&'
  · subst h1; decide
  · by_cases h2 : x = '<'
    · subst h2; decide
    · by_cases h3 : x = '>'
      · subst h3; decide
      · by_cases h4 : x = quoteC
        · subst h4; decide
        · by_cases h5 : x = aposC
          · subst h5; decide
          · simp [escChar, replaceChar, h1, h2, h3, h4, h5]

theorem escapeHtmlStr_eq_concatMap (s : String) :
    (escapeHtmlStr s).data = concatMap escChar s.data := by
  show replaceChar aposC "&#039;".data
      (replaceChar quoteC "&quot;".data
        (replaceChar '>' "&gt;".data
          (replaceChar '<' "&lt;".data
            (replaceChar '&' "&amp;".data s.data)))) = concatMap escChar s.data
  rw [replaceChar_eq_concatMap '&' "&amp;".data s.data]
  rw [replaceChar_concatMap, replaceChar_concatMap, replaceChar_concatMap,
    replaceChar_concatMap]
  exact concatMap_congr _ _ escChain_char s.data

theorem mem_concatMap (f : Char → List Char) (l : List Char) (c : Char)
    (h : c ∈ concatMap f l) : ∃ x ∈ l, c ∈ f x := by
  induction l with
  | nil => simp [concatMap] at h
  | cons x xs ih =>
    simp only [concatMap, List.mem_append] at h
    cases h with
    | inl h2 => exact ⟨x, List.mem_cons_self x xs, h2⟩
    | inr h2 =>
      obtain ⟨y, hy, hc⟩ := ih h2
      exact ⟨y, List.mem_cons_of_mem x hy, hc⟩

theorem escChar_no_special (x c : Char) (h : c ∈ escChar x) :
    c ≠ '<' ∧ c ≠ '>' ∧ c ≠ quoteC ∧ c ≠ aposC := by
  unfold escChar at h
  split at h
  · have hd : "&amp;".data = ['&', 'a', 'm', 'p', ';'] := rfl
    rw [hd] at h
    simp only [List.mem_cons, List.not_mem_nil, or_false] at h
    rcases h with rfl | rfl | rfl | rfl | rfl <;> refine ⟨by decide, by decide, by decide, by decide⟩
  · split at h
    · have hd : "&lt;".data = ['&', 'l', 't', ';'] := rfl
      rw [hd] at h
      simp only [List.mem_cons, List.not_mem_nil, or_false] at h
      rcases h with rfl | rfl | rfl | rfl <;> refine ⟨by decide, by decide, by decide, by decide⟩
    · split at h
      · have hd : "&gt;".data = ['&', 'g', 't', ';'] := rfl
        rw [hd] at h
        simp only [List.mem_cons, List.not_mem_nil, or_false] at h
        rcases h with rfl | rfl | rfl | rfl <;> refine ⟨by decide, by decide, by decide, by decide⟩
      · split at h
        · have hd : "&quot;".data = ['&', 'q', 'u', 'o', 't', ';'] := rfl
          rw [hd] at h
          simp only [List.mem_cons, List.not_mem_nil, or_false] at h
          rcases h with rfl | rfl | rfl | rfl | rfl | rfl <;>
            refine ⟨by decide, by decide, by decide, by decide⟩
        · split at h
          · have hd : "&#039;".data = ['&', '#', '0', '3', '9', ';'] := rfl
            rw [hd] at h
            simp only [List.mem_cons, List.not_mem_nil, or_false] at h
            rcases h with rfl | rfl | rfl | rfl | rfl | rfl <;>
              refine ⟨by decide, by decide, by decide, by decide⟩
          · rename_i hn1 hn2 hn3 hn4 hn5
            simp only [List.mem_cons, List.not_mem_nil, or_false] at h
            subst h
            exact ⟨hn2, hn3, hn4, hn5⟩

/-- C1: after the Session Registry binds a freshly created token to a
username, lookup keeps returning that username across any later requests
whose registry operations touch only other tokens; deleting a token makes
lookup on it signal absence; and lookup is total, returning either a
binding or absence for every registry and token (it cannot throw). -/
theorem session_registry_lifecycle (s : Sessions) (t u : String) (ops : List RegOp)
    (hops : ∀ op ∈ ops, RegOp.tok op ≠ t) :
    Sessions.lookup (applyOps (Sessions.insert s t u) ops) t = some u
    ∧ (∀ (s2 : Sessions) (t2 : String),
        Sessions.lookup (Sessions.erase s2 t2) t2 = none)
    ∧ (∀ (s3 : Sessions) (t3 : String),
        Sessions.lookup s3 t3 = none ∨ ∃ u3, Sessions.lookup s3 t3 = some u3) := by
  refine ⟨?_, ?_, ?_⟩
  · apply lookup_applyOps_of_ne ops (Sessions.insert s t u) t u hops
    unfold Sessions.lookup Sessions.insert
    simp
  · intro s2 t2
    unfold Sessions.lookup Sessions.erase
    simp
  · intro s3 t3
    cases h : Sessions.lookup s3 t3 with
    | none => exact Or.inl rfl
    | some u3 => exact Or.inr ⟨u3, rfl⟩

/-- Witness for C1 at a concrete registry history. -/
theorem session_registry_lifecycle_witness :
    Sessions.lookup
      (applyOps (Sessions.insert Sessions.empty "aaa" "alice")
        [RegOp.create "bbb" "bob", RegOp.del "ccc"]) "aaa" = some "alice" :=
  (session_registry_lifecycle Sessions.empty "aaa" "alice"
    [RegOp.create "bbb" "bob", RegOp.del "ccc"] (by decide)).1

/-- C2: the two login failure causes are indistinguishable in the
response: an unknown username and a wrong password for an existing user
both produce exactly the generic failure body, with no Set-Cookie header
and no registry change. -/
theorem login_failure_indistinguishable
    (verify : String → String → Bool) (tok : String) (db : Store) (s : Sessions)
    (n1 p1 : Option String) (n2 p2 : String) (u : UserRec)
    (h1 : getUserByName db n1 = none)
    (h2 : getUserByName db (some n2) = some u)
    (h3 : verify p2 u.password = false) :
    loginPost verify tok db n1 p1 s = .ok ⟨s, loginFailMsg, none⟩
    ∧ loginPost verify tok db (some n2) (some p2) s = .ok ⟨s, loginFailMsg, none⟩ := by
  constructor
  · cases n1 with
    | none => rfl
    | some n => simp [loginPost, h1]
  · simp [loginPost, h2, bcryptCompare, h3]

/-- Witness for C2: one store, both failure causes. -/
theorem login_failure_indistinguishable_witness :
    loginPost (fun _ _ => false) "t0" [⟨some "alice", "H1"⟩] (some "bob") (some "pw")
        Sessions.empty = .ok ⟨Sessions.empty, loginFailMsg, none⟩
    ∧ loginPost (fun _ _ => false) "t0" [⟨some "alice", "H1"⟩] (some "alice") (some "pw")
        Sessions.empty = .ok ⟨Sessions.empty, loginFailMsg, none⟩ :=
  login_failure_indistinguishable (fun _ _ => false) "t0" [⟨some "alice", "H1"⟩]
    Sessions.empty (some "bob") (some "pw") "alice" "pw" ⟨some "alice", "H1"⟩
    (by decide) (by decide) rfl

/-- C4: a request outside the static prefix whose path is off the
allow-list, and an allow-listed request whose page handler throws, both
get status 404 with the generic body; the response is the same constant
whatever the thrown error message was. -/
theorem dispatcher_not_found_generic
    (fe : String → Bool) (fb : String → String)
    (runPage : String → Except String (String × Meta))
    (s : Sessions) (c : Option String) (pathname : String)
    (hstatic : strStartsWith pathname "/public/" = false) :
    (allowedPageModules pathname = none →
      dispatch fe fb runPage s c pathname = ⟨404, "Page not found"⟩)
    ∧ (∀ (key e : String), allowedPageModules pathname = some key →
        runPage key = .error e →
        dispatch fe fb runPage s c pathname = ⟨404, "Page not found"⟩) := by
  constructor
  · intro h
    simp [dispatch, hstatic, h]
  · intro key e hkey herr
    simp [dispatch, hstatic, hkey, herr]

/-- Witness for C4: an unknown route and a throwing handler. -/
theorem dispatcher_not_found_generic_witness :
    dispatch (fun _ => false) (fun _ => "") (fun _ => .error "boom")
      Sessions.empty none "/nope" = ⟨404, "Page not found"⟩
    ∧ dispatch (fun _ => false) (fun _ => "") (fun _ => .error "boom")
      Sessions.empty none "/login" = ⟨404, "Page not found"⟩ :=
  ⟨(dispatcher_not_found_generic (fun _ => false) (fun _ => "") (fun _ => .error "boom")
      Sessions.empty none "/nope" (by decide)).1 (by decide),
   (dispatcher_not_found_generic (fun _ => false) (fun _ => "") (fun _ => .error "boom")
      Sessions.empty none "/login" (by decide)).2 "login" "boom" (by decide) rfl⟩

/-- C5: registering a name that already has a credential record makes
createUser resolve false rather than throw; the handler answers the taken
message with no session insertion, no cookie, and the store unchanged (no
second record); an unexpected storage fault instead yields the generic
server-error body. -/
theorem register_conflict_no_duplicate
    (hashFn : String → String) (tok : String) (db : Store) (n p : String)
    (s : Sessions)
    (htaken : db.any (fun r => r.name == some n) = true) :
    createUserE db (some n) (hashFn p) = .ok (false, db)
    ∧ registerPost hashFn tok createUserE db (some n) (some p) s
        = .ok ⟨s, db, takenMsg, none⟩
    ∧ (∀ (e : JsError) (db2 : Store) (nm : Option String) (p2 : String) (s2 : Sessions),
        registerPost hashFn tok (fun _ _ _ => .error e) db2 nm (some p2) s2
          = .ok ⟨s2, db2, serverErrMsg, none⟩) := by
  refine ⟨?_, ?_, ?_⟩
  · simp [createUserE, createUser, htaken]
  · simp [registerPost, bcryptHash, createUserE, createUser, htaken]
  · intro e db2 nm p2 s2
    rfl

/-- Witness for C5 at a concrete taken name. -/
theorem register_conflict_no_duplicate_witness :
    registerPost (fun x => x) "t1" createUserE [⟨some "alice", "h0"⟩]
      (some "alice") (some "pw") Sessions.empty
      = .ok ⟨Sessions.empty, [⟨some "alice", "h0"⟩], takenMsg, none⟩ :=
  (register_conflict_no_duplicate (fun x => x) "t1" [⟨some "alice", "h0"⟩]
    "alice" "pw" Sessions.empty (by decide)).2.1

/-- C6: registry deletion is idempotent and deleting an absent token is a
no-op, not an error; two successive logouts carrying the same cookie both
return the confirmation body and both set the clearing cookie, and the
second logout leaves the registry unchanged. -/
theorem logout_idempotent (s : Sessions) (c : Option String) :
    (logoutRender s c).body = logoutMsg
    ∧ (logoutRender (logoutRender s c).sessions c).body = logoutMsg
    ∧ (logoutRender s c).setCookie = clearCookie
    ∧ (logoutRender (logoutRender s c).sessions c).setCookie = clearCookie
    ∧ (logoutRender (logoutRender s c).sessions c).sessions = (logoutRender s c).sessions
    ∧ (∀ (s2 : Sessions) (t : String),
        Sessions.erase (Sessions.erase s2 t) t = Sessions.erase s2 t)
    ∧ (∀ (s2 : Sessions) (t : String),
        Sessions.lookup s2 t = none → Sessions.erase s2 t = s2) := by
  refine ⟨rfl, rfl, rfl, rfl, ?_, ?_, ?_⟩
  · show Sessions.erase (Sessions.erase s (jsKey c)) (jsKey c) = Sessions.erase s (jsKey c)
    funext k
    unfold Sessions.erase
    by_cases h : k = jsKey c <;> simp [h]
  · intro s2 t
    funext k
    unfold Sessions.erase
    by_cases h : k = t <;> simp [h]
  · intro s2 t h
    funext k
    unfold Sessions.erase
    by_cases hk : k = t
    · subst hk
      rw [if_pos rfl]
      exact h.symm
    · rw [if_neg hk]

/-- Witness for C6: deleting from the empty registry is a no-op. -/
theorem logout_idempotent_witness :
    Sessions.erase Sessions.empty "xyz" = Sessions.empty :=
  (logout_idempotent Sessions.empty none).2.2.2.2.2.2 Sessions.empty "xyz" rfl

/-- C7 (evaluation at the failing input): with a missing or malformed POST
body both form fields are absent (URLSearchParams yields null); the login
handler then answers the generic failure page with no cookie and no
registry change, but the register handler calls bcrypt.hash(null, 10)
before its try block and that rejection propagates out of the handler
unhandled, so no HTML response is produced. The login, register and
profile handlers ignore query parameters. -/
theorem post_empty_params_eval :
    ∀ (hashFn : String → String) (tok : String)
      (create : Store → Option String → String → Except JsError (Bool × Store))
      (db : Store) (s : Sessions)
      (verify : String → String → Bool) (tok2 : String) (db2 : Store) (s2 : Sessions)
      (q1 q2 : Query) (c : Option String),
      registerPost hashFn tok create db none none s = .error ⟨"data must be a string"⟩
      ∧ loginPost verify tok2 db2 none none s2 = .ok ⟨s2, loginFailMsg, none⟩
      ∧ profileRender q1 s2 c = profileRender q2 s2 c := by
  intro hashFn tok create db s verify tok2 db2 s2 q1 q2 c
  exact ⟨rfl, rfl, rfl⟩

set_option maxRecDepth 10000 in
/-- C8 (evaluation at the failing input): the cookie token "toString" is
bound by no create, yet the profile handler's read of the plain-object
registry walks the prototype chain to the inherited, truthy
Object.prototype.toString, so it renders a greeting (embedding the
function's String() conversion, which escapeHtml passes through
unescaped) instead of the login prompt. An unbound token that names no
Object.prototype member, and a request carrying no session cookie at
all, do get exactly the login prompt. -/
theorem profile_prototype_leak_eval :
    profileRender (fun _ => none) Sessions.empty (some "toString") ≠ profilePrompt
    ∧ strContains (profileRender (fun _ => none) Sessions.empty (some "toString"))
        "<h1>Welcome, function toString() \x7b [native code] \x7d!</h1>" = true
    ∧ profileRender (fun _ => none) Sessions.empty (some "deadbeef") = profilePrompt
    ∧ profileRender (fun _ => none) Sessions.empty none = profilePrompt :=
  ⟨by decide, by decide, by decide, by decide⟩

/-- C10: escapeHtml is total over all JS inputs: null and undefined give
the empty string, any other non-string gives its string conversion
unescaped, and a string is mapped character-wise onto HTML entities (amp,
lt, gt, quot, numeric 039); consequently the escape of a string contains
no raw angle bracket, double quote or apostrophe character. -/
theorem escapeHtml_total_spec :
    escapeHtml JsInput.null = ""
    ∧ escapeHtml JsInput.undef = ""
    ∧ (∀ conv, escapeHtml (JsInput.other conv) = conv)
    ∧ (∀ s2, (escapeHtml (JsInput.str s2)).data = concatMap escChar s2.data)
    ∧ (∀ s2, ((escapeHtml (JsInput.str s2)).data.all
        (fun ch => !(ch == '<' || ch == '>' || ch == quoteC || ch == aposC))) = true) := by
  refine ⟨rfl, rfl, fun _ => rfl, fun s2 => escapeHtmlStr_eq_concatMap s2, ?_⟩
  intro s2
  rw [List.all_eq_true]
  intro ch hch
  have hc2 : ch ∈ concatMap escChar s2.data := by
    rw [← escapeHtmlStr_eq_concatMap s2]
    exact hch
  obtain ⟨x, _, hcx⟩ := mem_concatMap escChar s2.data ch hc2
  obtain ⟨g1, g2, g3, g4⟩ := escChar_no_special x ch hcx
  simp [g1, g2, g3, g4]

set_option maxRecDepth 10000 in
/-- C3 (evaluation at the failing input): with a markup-bearing username
bound in the registry, the src/pages/app.js layout emits the RAW name
inside its authenticated nav fragment, while the profile page and the
escaping layout variant of src/unnamed/part_001 emit only the escaped
form and never the raw markup. -/
theorem layout_raw_username_eval :
    strContains
      (wrap "" ⟨some "Home"⟩
        (Sessions.insert Sessions.empty "tok1" "<script>alert(1)</script>") (some "tok1"))
      "<script>" = true
    ∧ strContains
      (profileRender (fun _ => none)
        (Sessions.insert Sessions.empty "tok1" "<script>alert(1)</script>") (some "tok1"))
      "<script>" = false
    ∧ strContains
      (wrapEsc "" ⟨some "Home"⟩
        (Sessions.insert Sessions.empty "tok1" "<script>alert(1)</script>") (some "tok1"))
      "<script>" = false :=
  ⟨by decide, by decide, by decide⟩

set_option maxRecDepth 10000 in
/-- C9 counterexample: a present but empty title yields the literal
Untitled in the title element, so Untitled does not appear exactly when
the title is absent. -/
theorem wrap_empty_title_counterexample :
    (Meta.mk (some "")).title ≠ none
    ∧ strContains (wrap "BODY" ⟨some ""⟩ Sessions.empty none)
        "<title>Untitled</title>" = true :=
  ⟨by decide, by decide⟩

/-- C9 (amended): wrap injects meta.title into the document title element
whenever a nonempty title is present, injects the literal Untitled exactly
when the title is absent or empty (both are falsy to the JS default), and
embeds the page body verbatim (unescaped) inside the fixed shell that
references the shared stylesheet. -/
theorem wrap_title_body_shell (body : String) (meta : Meta) (s : Sessions)
    (c : Option String) :
    (∀ t, meta.title = some t → t ≠ "" →
      strContains (wrap body meta s c) ("<title>" ++ t ++ "</title>") = true)
    ∧ ((meta.title = none ∨ meta.title = some "") →
      strContains (wrap body meta s c) "<title>Untitled</title>" = true)
    ∧ strContains (wrap body meta s c) body = true
    ∧ strContains (wrap body meta s c) styleLinkSlash = true := by
  refine ⟨?_, ?_, ?_, ?_⟩
  · intro t ht hne
    have hjs : jsOr meta.title "Untitled" = t := by
      rw [ht]
      simp [jsOr, hne]
    apply strContains_parts wrapA ("<title>" ++ t ++ "</title>")
      (wrapB styleLinkSlash ++ authLinksRaw s c ++ wrapC ++ body ++ wrapD)
    unfold wrap
    rw [hjs]
    apply String.ext
    simp [List.append_assoc]
  · intro hd
    have hjs : jsOr meta.title "Untitled" = "Untitled" := by
      cases hd with
      | inl h => rw [h]; rfl
      | inr h => rw [h]; rfl
    rw [show ("<title>Untitled</title>" : String)
        = "<title>" ++ "Untitled" ++ "</title>" from rfl]
    apply strContains_parts wrapA ("<title>" ++ "Untitled" ++ "</title>")
      (wrapB styleLinkSlash ++ authLinksRaw s c ++ wrapC ++ body ++ wrapD)
    unfold wrap
    rw [hjs]
    apply String.ext
    simp [List.append_assoc]
  · apply strContains_parts
      (wrapA ++ "<title>" ++ jsOr meta.title "Untitled" ++ "</title>"
        ++ wrapB styleLinkSlash ++ authLinksRaw s c ++ wrapC)
      body wrapD
    unfold wrap
    apply String.ext
    simp [List.append_assoc]
  · apply strContains_parts
      (wrapA ++ "<title>" ++ jsOr meta.title "Untitled" ++ "</title>" ++ "\n    ")
      styleLinkSlash
      (wrapB2 ++ authLinksRaw s c ++ wrapC ++ body ++ wrapD)
    unfold wrap wrapB
    apply String.ext
    simp [List.append_assoc]

/-- Witness for C9 (amended) at a concrete nonempty title. -/
theorem wrap_title_body_shell_witness :
    strContains (wrap "B0" ⟨some "Home"⟩ Sessions.empty none)
      ("<title>" ++ "Home" ++ "</title>") = true :=
  (wrap_title_body_shell "B0" ⟨some "Home"⟩ Sessions.empty none).1 "Home" rfl (by decide)

end WebApp
